import Mathlib

/-
A shallow embedding of `src/sw.js`: a service worker that precaches a
manifest on install, sweeps stale cache generations on activate, and routes
each intercepted GET request to one of three caching strategies
(network-first for navigations, stale-while-revalidate for same-origin
static resources and allowlisted external images, passthrough otherwise).

Cache stores are modelled as association lists keyed by request URL, the
cache namespace as an association list from store name to store, and the
network as an oracle returning `Option Response` (`none` models a rejected
fetch). JavaScript truthiness of the `cached || networkFetch || sentinel`
chains is modelled explicitly by `JSVal`, because one of the three operands
is a pending promise (an object, hence truthy) rather than an awaited value.
-/

set_option autoImplicit false

namespace SW

/-- A response snapshot: status, statusText, response type
("basic", "cors", "error", "opaqueredirect", ...) and body. -/
structure Response where
  status : Nat
  statusText : String
  rtype : String
  body : String
deriving DecidableEq

/-- Response.error(): the generic network-error sentinel. -/
def Response.err : Response :=
  { status := 0, statusText := "", rtype := "error", body := "" }

/-- new Response('', { status: 504, statusText: 'Gateway Timeout' }). -/
def gatewayTimeout : Response :=
  { status := 504, statusText := "Gateway Timeout", rtype := "basic", body := "" }

/-- An intercepted request, with its URL already parsed into components
(as by new URL(req.url)). `url` is the full URL string and serves as the
cache key, since the Cache API matches entries by request URL. -/
structure Request where
  method : String
  url : String
  mode : String
  accept : Option String
  destination : String
  urlOrigin : String
  urlHost : String
  urlPathname : String
deriving DecidableEq

/-- The shape of a request handed to fetch: its URL plus the cache-mode and
credentials options that the worker sets. -/
structure NetReq where
  url : String
  cacheMode : String
  credentials : String
deriving DecidableEq

/-- Helper from the source: create a reload Request so the HTTP cache is
bypassed during install (`new Request(url, { cache: 'reload',
credentials: 'same-origin' })`). -/
def reloadReq (url : String) : NetReq :=
  { url := url, cacheMode := "reload", credentials := "same-origin" }

/-- A physical cache store: entries keyed by request URL. -/
abbrev Store := List (String × Response)

/-- The cache namespace (`caches`): physical stores keyed by name. -/
abbrev CacheNS := List (String × Store)

/-- First entry with the given key, if any. -/
def alistGet? {α : Type} (l : List (String × α)) (k : String) : Option α :=
  match l.find? (fun e => e.1 == k) with
  | some e => some e.2
  | none => none

/-- Overwrite the entry with the given key (the Cache API's put replaces
any existing entry for the same request). -/
def alistPut {α : Type} (l : List (String × α)) (k : String) (v : α) :
    List (String × α) :=
  l.filter (fun e => !(e.1 == k)) ++ [(k, v)]

/-- cache.match(req): the response stored under the request URL, if any. -/
def storeMatch (s : Store) (k : String) : Option Response := alistGet? s k

/-- cache.put(req, res): store the response under the request URL. -/
def storePut (s : Store) (k : String) (r : Response) : Store := alistPut s k r

/-- caches.open(name), read side: the store with that name, empty when the
store does not exist yet (open creates it). -/
def nsGet (ns : CacheNS) (n : String) : Store := (alistGet? ns n).getD []

/-- Write back the (possibly newly created) store under its name. -/
def nsSet (ns : CacheNS) (n : String) (s : Store) : CacheNS := alistPut ns n s

def CACHE_VERSION : String := "edu-ideas-v1.0.0"

def PRECACHE : String := "precache-" ++ CACHE_VERSION

def RUNTIME : String := "runtime-" ++ CACHE_VERSION

def PRECACHE_URLS : List String :=
  ["/", "./", "index.html", "manifest.json",
   "icon-72x72.png", "icon-96x96.png", "icon-128x128.png", "icon-144x144.png",
   "icon-152x152.png", "icon-180x180.png", "icon-192x192.png",
   "icon-384x384.png", "icon-512x512.png"]

/-- The worker's own location (self.location), fixed per deployment. -/
structure SWEnv where
  host : String
  origin : String
deriving DecidableEq

/-- Hosts allowed for runtime image caching; the worker's own host is the
first element. -/
def IMAGE_HOST_WHITELIST (env : SWEnv) : List String :=
  [env.host, "img.youtube.com", "i.ytimg.com", "www.google.com",
   "s2.googleusercontent.com", "assets.pinterest.com"]

/-- Whether the character list `s` starts with the character list `pat`. -/
def listStartsWith : List Char → List Char → Bool
  | _, [] => true
  | [], _ :: _ => false
  | c :: s, d :: pat => c == d && listStartsWith s pat

/-- Whether `pat` occurs as a contiguous run inside `s`. -/
def listHasSub : List Char → List Char → Bool
  | [], pat => listStartsWith [] pat
  | c :: t, pat => listStartsWith (c :: t) pat || listHasSub t pat

/-- s.includes(pat). -/
def hasSubstr (s pat : String) : Bool := listHasSub s.data pat.data

/-- s.endsWith(pat). -/
def endsWithStr (s pat : String) : Bool :=
  listStartsWith s.data.reverse pat.data.reverse

/-- req.mode === 'navigate' || (req.method === 'GET' &&
req.headers.get('accept')?.includes('text/html')); a missing accept header
makes the optional chain undefined, hence falsy. -/
def isNavigationRequest (req : Request) : Bool :=
  req.mode == "navigate" ||
    (req.method == "GET" &&
      (match req.accept with
       | some a => hasSubstr a "text/html"
       | none => false))

def imageExts : List String := ["png", "jpg", "jpeg", "gif", "webp", "svg"]

/-- Test of the pathname against the source's image-extension pattern:
a dot, one of the extensions, then either the end of the string or a query
string ("\x2e(?:png|jpg|jpeg|gif|webp|svg)(\x3f.*)?$" as a regex). -/
def hasImageExt (p : String) : Bool :=
  imageExts.any (fun e => endsWithStr p ("." ++ e)) ||
    imageExts.any (fun e => hasSubstr p ("." ++ e ++ "?"))

/-- req.destination === 'image' || the pathname matches the image regex. -/
def isImageLike (req : Request) : Bool :=
  req.destination == "image" || hasImageExt req.urlPathname

/-- A JavaScript value as it occurs in the handlers' `||` chains: undefined,
an (awaited) response, or a still-pending promise of a response-or-undefined. -/
inductive JSVal where
  | undef
  | respV (r : Response)
  | promiseV (p : Option Response)
deriving DecidableEq

/-- JS truthiness: undefined is falsy; objects (responses and promises,
settled or not) are truthy. -/
def JSVal.truthy : JSVal → Bool
  | .undef => false
  | .respV _ => true
  | .promiseV _ => true

/-- a || b. -/
def jsOr (a b : JSVal) : JSVal := if a.truthy then a else b

/-- The value of an awaited response-or-undefined lookup. -/
def jsOfOpt : Option Response → JSVal
  | none => .undef
  | some r => .respV r

/-- Settling of the value returned from the async handler body: returning a
promise makes the outer promise adopt it, so respondWith receives its
resolution; returning undefined resolves to undefined (`none`). -/
def awaitJS : JSVal → Option Response
  | .undef => none
  | .respV r => some r
  | .promiseV p => p

/-- cache.addAll(PRECACHE_URLS.map(reloadReq)) against a network oracle:
every manifest URL is fetched with a cache-bypassing request and written
under its URL; if any fetch fails the whole operation rejects (`none`). -/
def addAllGo (net : NetReq → Option Response) :
    List String → Store → Option Store
  | [], s => some s
  | u :: rest, s =>
    match net (reloadReq u) with
    | none => none
    | some r => addAllGo net rest (storePut s u r)

/-- The install step: populate the precache store from the manifest;
`none` means the install lifetime promise rejects. -/
def installPrecache (net : NetReq → Option Response) : Option Store :=
  addAllGo net PRECACHE_URLS []

/-- The activate step's cache sweep: enumerate all store names and delete
every store whose name is neither the current precache nor the current
runtime store name. -/
def activateSweep (ns : CacheNS) : CacheNS :=
  ns.filter (fun e => e.1 == PRECACHE || e.1 == RUNTIME)

/-- Outcome of the fetch event listener for one request: either the handler
returned without calling respondWith, or respondWith was called and its
promise settled to `r` (`responded none`: the promise settled to undefined,
which the browser turns into a network error). -/
inductive HandlerResult where
  | unhandled
  | responded (r : Option Response)
deriving DecidableEq

/-- The fetch event listener. `net` is the outcome of the single network
fetch the chosen branch performs (`none`: that fetch rejected); the
navigation branch fetches reloadReq req.url, the stale-while-revalidate and
passthrough branches fetch the request itself (the image branch with
mode cors). The first component is what the respondWith promise settles to;
the second is the cache namespace after all writes of this handler run. -/
def handleFetch (env : SWEnv) (req : Request) (net : Option Response)
    (ns : CacheNS) : HandlerResult × CacheNS :=
  if req.method ≠ "GET" then (.unhandled, ns)
  else if isNavigationRequest req then
    match net with
    | some fresh =>
      (.responded (some fresh),
        nsSet ns RUNTIME (storePut (nsGet ns RUNTIME) req.url fresh))
    | none =>
      (.responded (awaitJS (jsOr
          (jsOfOpt (storeMatch (nsGet ns PRECACHE) "index.html"))
          (.respV Response.err))), ns)
  else if req.urlOrigin = env.origin then
    if endsWithStr req.urlPathname "/sw.js" then (.unhandled, ns)
    else
      let cached := storeMatch (nsGet ns RUNTIME) req.url
      let ns' :=
        match net with
        | some res =>
          if res.status = 200 ∨ res.rtype = "opaqueredirect" then
            nsSet ns RUNTIME (storePut (nsGet ns RUNTIME) req.url res)
          else ns
        | none => ns
      (.responded (awaitJS (jsOr (jsOr (jsOfOpt cached) (.promiseV net))
          (.respV gatewayTimeout))), ns')
  else if isImageLike req ∧ (IMAGE_HOST_WHITELIST env).contains req.urlHost then
    let cached := storeMatch (nsGet ns RUNTIME) req.url
    let ns' :=
      match net with
      | some res =>
        if res.status = 200 then
          nsSet ns RUNTIME (storePut (nsGet ns RUNTIME) req.url res)
        else ns
      | none => ns
    (.responded (awaitJS (jsOr (jsOr (jsOfOpt cached) (.promiseV net))
        (.respV Response.err))), ns')
  else
    match net with
    | some r => (.responded (some r), ns)
    | none =>
      (.responded (awaitJS (jsOr
          (jsOfOpt (storeMatch (nsGet ns RUNTIME) req.url))
          (.respV Response.err))), ns)

theorem find?_filter_ne {α : Type} (l : List (String × α)) (k : String) :
    (l.filter (fun e => !(e.1 == k))).find? (fun e => e.1 == k) = none := by
  rw [List.find?_eq_none]
  intro x hx
  rw [List.mem_filter] at hx
  simpa using hx.2

theorem alistGet?_put_self {α : Type} (l : List (String × α)) (k : String)
    (v : α) : alistGet? (alistPut l k v) k = some v := by
  unfold alistGet? alistPut
  rw [List.find?_append, find?_filter_ne]
  simp [List.find?]

theorem find?_key_filter_ne {α : Type} (l : List (String × α)) (k k' : String)
    (h : k' ≠ k) :
    (l.filter (fun e => !(e.1 == k))).find? (fun e => e.1 == k') =
      l.find? (fun e => e.1 == k') := by
  induction l with
  | nil => rfl
  | cons e t ih =>
    cases hbk : (e.1 == k) with
    | true =>
      have hbk' : (e.1 == k') = false := by
        have he : e.1 = k := by simpa using hbk
        simp [he]
        exact fun hk => h hk.symm
      simp [List.filter_cons, hbk, hbk', ih]
    | false =>
      cases hbk' : (e.1 == k') with
      | true => simp [List.filter_cons, hbk, hbk']
      | false => simp [List.filter_cons, hbk, hbk', ih]

theorem alistGet?_put_other {α : Type} (l : List (String × α)) (k k' : String)
    (v : α) (h : k' ≠ k) :
    alistGet? (alistPut l k v) k' = alistGet? l k' := by
  unfold alistGet? alistPut
  rw [List.find?_append, find?_key_filter_ne _ _ _ h]
  cases hfind : l.find? (fun e => e.1 == k') with
  | some e => simp
  | none =>
    have : (k == k') = false := by
      simp
      exact fun hk => h hk.symm
    simp [List.find?, this]

theorem filter_filter_ne {α : Type} (l : List (String × α)) (k : String) :
    (l.filter (fun e => !(e.1 == k))).filter (fun e => e.1 == k) = [] := by
  induction l with
  | nil => rfl
  | cons e t ih =>
    by_cases he : e.1 = k <;> simp [List.filter_cons, he, ih]

theorem filter_key_put {α : Type} (l : List (String × α)) (k : String) (v : α) :
    (alistPut l k v).filter (fun e => e.1 == k) = [(k, v)] := by
  unfold alistPut
  rw [List.filter_append, filter_filter_ne]
  simp

theorem storeMatch_put_self (s : Store) (k : String) (r : Response) :
    storeMatch (storePut s k r) k = some r :=
  alistGet?_put_self s k r

theorem nsGet_nsSet_self (ns : CacheNS) (n : String) (s : Store) :
    nsGet (nsSet ns n s) n = s := by
  simp [nsGet, nsSet, alistGet?_put_self]

theorem nsGet_nsSet_other (ns : CacheNS) (n m : String) (s : Store)
    (h : m ≠ n) : nsGet (nsSet ns n s) m = nsGet ns m := by
  simp [nsGet, nsSet, alistGet?_put_other _ _ _ _ h]

theorem awaitJS_jsOr_opt (m : Option Response) (e : Response) :
    awaitJS (jsOr (jsOfOpt m) (.respV e)) = some (m.getD e) := by
  cases m <;> rfl

theorem swrChain_hit (c : Response) (net : Option Response) (s : Response) :
    awaitJS (jsOr (jsOr (jsOfOpt (some c)) (.promiseV net)) (.respV s)) =
      some c := rfl

theorem swrChain_miss (net : Option Response) (s : Response) :
    awaitJS (jsOr (jsOr (jsOfOpt none) (.promiseV net)) (.respV s)) = net :=
  rfl

/-- Characterization of the same-origin stale-while-revalidate branch. -/
theorem handleFetch_sameOrigin (env : SWEnv) (req : Request)
    (net : Option Response) (ns : CacheNS) (hm : req.method = "GET")
    (hn : isNavigationRequest req = false) (ho : req.urlOrigin = env.origin)
    (hsw : endsWithStr req.urlPathname "/sw.js" = false) :
    handleFetch env req net ns =
      (.responded (awaitJS (jsOr
          (jsOr (jsOfOpt (storeMatch (nsGet ns RUNTIME) req.url))
            (.promiseV net))
          (.respV gatewayTimeout))),
       match net with
       | some res =>
         if res.status = 200 ∨ res.rtype = "opaqueredirect" then
           nsSet ns RUNTIME (storePut (nsGet ns RUNTIME) req.url res)
         else ns
       | none => ns) := by
  cases net <;> simp [handleFetch, hm, hn, ho, hsw]

/-- Characterization of the allowlisted external-image branch. -/
theorem handleFetch_image (env : SWEnv) (req : Request)
    (net : Option Response) (ns : CacheNS) (hm : req.method = "GET")
    (hn : isNavigationRequest req = false)
    (ho : ¬ req.urlOrigin = env.origin) (hi : isImageLike req = true)
    (hw : (IMAGE_HOST_WHITELIST env).contains req.urlHost = true) :
    handleFetch env req net ns =
      (.responded (awaitJS (jsOr
          (jsOr (jsOfOpt (storeMatch (nsGet ns RUNTIME) req.url))
            (.promiseV net))
          (.respV Response.err))),
       match net with
       | some res =>
         if res.status = 200 then
           nsSet ns RUNTIME (storePut (nsGet ns RUNTIME) req.url res)
         else ns
       | none => ns) := by
  have hw' : req.urlHost ∈ IMAGE_HOST_WHITELIST env := by simpa using hw
  cases net <;> simp [handleFetch, hm, hn, ho, hi, hw']

/-- Characterization of the passthrough branch. -/
theorem handleFetch_passthrough (env : SWEnv) (req : Request)
    (net : Option Response) (ns : CacheNS) (hm : req.method = "GET")
    (hn : isNavigationRequest req = false)
    (ho : ¬ req.urlOrigin = env.origin)
    (hg : ¬ (isImageLike req = true ∧
      (IMAGE_HOST_WHITELIST env).contains req.urlHost = true)) :
    handleFetch env req net ns =
      (match net with
       | some r => (.responded (some r), ns)
       | none =>
         (.responded (some ((storeMatch (nsGet ns RUNTIME) req.url).getD
            Response.err)), ns)) := by
  cases hIm : isImageLike req with
  | false => cases net <;> simp [handleFetch, hm, hn, ho, hIm, awaitJS_jsOr_opt]
  | true =>
    have hw' : req.urlHost ∉ IMAGE_HOST_WHITELIST env := by
      intro hmem
      exact hg ⟨hIm, by simpa using hmem⟩
    cases net <;>
      simp [handleFetch, hm, hn, ho, hIm, hw', awaitJS_jsOr_opt]

/-- A deployment of the worker at https://example.com. -/
def envEx : SWEnv := { host := "example.com", origin := "https://example.com" }

/-- A non-GET API request. -/
def reqPost : Request :=
  { method := "POST", url := "https://example.com/api", mode := "cors",
    accept := none, destination := "", urlOrigin := "https://example.com",
    urlHost := "example.com", urlPathname := "/api" }

/-- A navigation request to a page. -/
def reqNav : Request :=
  { method := "GET", url := "https://example.com/page", mode := "navigate",
    accept := some "text/html,application/xml", destination := "document",
    urlOrigin := "https://example.com", urlHost := "example.com",
    urlPathname := "/page" }

/-- A same-origin stylesheet request. -/
def reqCss : Request :=
  { method := "GET", url := "https://example.com/app.css", mode := "no-cors",
    accept := some "text/css", destination := "style",
    urlOrigin := "https://example.com", urlHost := "example.com",
    urlPathname := "/app.css" }

/-- An allowlisted external image request (a YouTube thumbnail). -/
def reqThumb : Request :=
  { method := "GET", url := "https://img.youtube.com/vi/abc/0.jpg",
    mode := "no-cors", accept := none, destination := "image",
    urlOrigin := "https://img.youtube.com", urlHost := "img.youtube.com",
    urlPathname := "/vi/abc/0.jpg" }

/-- An image request to a host absent from the allowlist. -/
def reqExtImg : Request :=
  { method := "GET", url := "https://cdn.example.net/pic.png",
    mode := "no-cors", accept := none, destination := "image",
    urlOrigin := "https://cdn.example.net", urlHost := "cdn.example.net",
    urlPathname := "/pic.png" }

/-- A GET request for the worker script itself. -/
def reqSw : Request :=
  { method := "GET", url := "https://example.com/sw.js", mode := "cors",
    accept := none, destination := "script",
    urlOrigin := "https://example.com", urlHost := "example.com",
    urlPathname := "/sw.js" }

/-- The precached offline shell document. -/
def indexDoc : Response :=
  { status := 200, statusText := "OK", rtype := "basic",
    body := "offline shell" }

/-- A 200 network response with the given body. -/
def okResp (b : String) : Response :=
  { status := 200, statusText := "OK", rtype := "basic", body := b }

/-- C8: for every request whose method is not GET, the fetch handler returns
without calling respondWith, and no cache store is read or written: the
namespace is returned unchanged. -/
theorem nonGET_unhandled (env : SWEnv) (req : Request) (net : Option Response)
    (ns : CacheNS) (h : req.method ≠ "GET") :
    handleFetch env req net ns = (.unhandled, ns) := by
  simp [handleFetch, h]

/-- Witness for nonGET_unhandled: a POST request is left unhandled. -/
theorem nonGET_unhandled_witness :
    handleFetch envEx reqPost none [] = (.unhandled, []) :=
  nonGET_unhandled envEx reqPost none [] (by decide)

/-- C10: a GET request to the worker's own origin whose path ends in
'/sw.js' and which is not classified as navigation is left entirely
unhandled, and the cache namespace is unchanged. -/
theorem swjs_self_excluded (env : SWEnv) (req : Request) (net : Option Response)
    (ns : CacheNS) (hm : req.method = "GET")
    (hn : isNavigationRequest req = false) (ho : req.urlOrigin = env.origin)
    (hp : endsWithStr req.urlPathname "/sw.js" = true) :
    handleFetch env req net ns = (.unhandled, ns) := by
  simp [handleFetch, hm, hn, ho, hp]

/-- Witness for swjs_self_excluded: a GET for https://example.com/sw.js. -/
theorem swjs_self_excluded_witness :
    handleFetch envEx reqSw none [] = (.unhandled, []) :=
  swjs_self_excluded envEx reqSw none [] rfl (by decide) rfl (by decide)

/-- C2: for a navigation request whose network fetch rejects, the response
is the document stored in the precache store under 'index.html' when
present, and the generic network-error sentinel when absent; the namespace
is unchanged either way. -/
theorem navigation_offline_fallback (env : SWEnv) (req : Request)
    (ns : CacheNS) (hm : req.method = "GET")
    (hn : isNavigationRequest req = true) :
    (∀ d, storeMatch (nsGet ns PRECACHE) "index.html" = some d →
        handleFetch env req none ns = (.responded (some d), ns))
    ∧ (storeMatch (nsGet ns PRECACHE) "index.html" = none →
        handleFetch env req none ns = (.responded (some Response.err), ns)) := by
  constructor
  · intro d hd
    simp [handleFetch, hm, hn, hd, jsOfOpt, jsOr, awaitJS, JSVal.truthy]
  · intro hd
    simp [handleFetch, hm, hn, hd, jsOfOpt, jsOr, awaitJS, JSVal.truthy]

/-- Witness for navigation_offline_fallback: with the shell precached, an
offline navigation yields exactly the stored document. -/
theorem navigation_offline_fallback_witness :
    handleFetch envEx reqNav none [(PRECACHE, [("index.html", indexDoc)])] =
      (.responded (some indexDoc), [(PRECACHE, [("index.html", indexDoc)])]) :=
  (navigation_offline_fallback envEx reqNav
      [(PRECACHE, [("index.html", indexDoc)])] rfl (by decide)).1
    indexDoc (by decide)

/-- C3: the activate sweep on a namespace holding stores for three other
generation tags plus the current generation's two stores keeps exactly the
two current stores; in general every surviving store is named PRECACHE or
RUNTIME. -/
theorem activate_sweep_spec (ns : CacheNS) (n1 n2 n3 : String)
    (s1 s2 s3 p r : Store)
    (h1p : n1 ≠ PRECACHE) (h1r : n1 ≠ RUNTIME)
    (h2p : n2 ≠ PRECACHE) (h2r : n2 ≠ RUNTIME)
    (h3p : n3 ≠ PRECACHE) (h3r : n3 ≠ RUNTIME) :
    activateSweep [(n1, s1), (n2, s2), (n3, s3), (PRECACHE, p), (RUNTIME, r)]
      = [(PRECACHE, p), (RUNTIME, r)]
    ∧ ∀ e ∈ activateSweep ns, e.1 = PRECACHE ∨ e.1 = RUNTIME := by
  constructor
  · simp [activateSweep, List.filter_cons, h1p, h1r, h2p, h2r, h3p, h3r]
  · intro e he
    rw [activateSweep, List.mem_filter] at he
    simpa using he.2

/-- Witness for activate_sweep_spec: three stale generations are swept. -/
theorem activate_sweep_spec_witness :
    activateSweep
        [("precache-edu-ideas-v0.9.0", []), ("runtime-edu-ideas-v0.9.0", []),
         ("precache-edu-ideas-v0.8.0", []), (PRECACHE, []), (RUNTIME, [])]
      = [(PRECACHE, []), (RUNTIME, [])] :=
  (activate_sweep_spec [] "precache-edu-ideas-v0.9.0"
      "runtime-edu-ideas-v0.9.0" "precache-edu-ideas-v0.8.0" [] [] [] [] []
      (by decide) (by decide) (by decide) (by decide) (by decide)
      (by decide)).1

/-- C1 (failing behaviour, exhibited): on a cache miss with a rejected
network fetch, both stale-while-revalidate branches resolve the respondWith
promise to undefined (`responded none`) — the `cached || networkFetch ||
sentinel` chain returns the network promise, an object and hence truthy, so
the gateway-timeout and network-error sentinels are unreachable. -/
theorem swr_miss_offline_resolves_undefined :
    handleFetch envEx reqCss none [] = (.responded none, [])
    ∧ handleFetch envEx reqThumb none [] = (.responded none, [])
    ∧ HandlerResult.responded none ≠ .responded (some gatewayTimeout)
    ∧ HandlerResult.responded none ≠ .responded (some Response.err) := by
  refine ⟨?_, ?_, ?_, ?_⟩ <;> decide

/-- Keys outside the manifest segment are untouched by addAllGo. -/
theorem addAllGo_preserves (net : NetReq → Option Response) :
    ∀ (l : List String) (k : String), ¬ k ∈ l →
      ∀ s s', addAllGo net l s = some s' → storeMatch s' k = storeMatch s k := by
  intro l
  induction l with
  | nil =>
    intro k _ s s' h
    cases h
    rfl
  | cons u rest ih =>
    intro k hk s s' h
    cases hnet : net (reloadReq u) with
    | none => simp [addAllGo, hnet] at h
    | some r =>
      simp only [addAllGo, hnet] at h
      have hk' : ¬ k ∈ rest := fun hm => hk (List.mem_cons_of_mem _ hm)
      have hku : k ≠ u := fun he => hk (he ▸ List.mem_cons_self _ _)
      rw [ih k hk' _ _ h]
      exact alistGet?_put_other s u k r hku

/-- When every manifest fetch succeeds, addAllGo succeeds and the resulting
store maps each manifest URL to its fetched response. -/
theorem addAllGo_success (net : NetReq → Option Response) :
    ∀ (l : List String), l.Nodup →
      (∀ u ∈ l, (net (reloadReq u)).isSome) →
      ∀ s : Store, ∃ s', addAllGo net l s = some s'
        ∧ ∀ u ∈ l, storeMatch s' u = net (reloadReq u) := by
  intro l
  induction l with
  | nil =>
    intro _ _ s
    exact ⟨s, rfl, by simp⟩
  | cons u rest ih =>
    intro hnd hall s
    have hu := hall u (List.mem_cons_self u rest)
    cases hnet : net (reloadReq u) with
    | none => rw [hnet] at hu; cases hu
    | some r =>
      have hndr : rest.Nodup := (List.nodup_cons.mp hnd).2
      have hur : ¬ u ∈ rest := (List.nodup_cons.mp hnd).1
      have hallr : ∀ v ∈ rest, (net (reloadReq v)).isSome :=
        fun v hv => hall v (List.mem_cons_of_mem _ hv)
      obtain ⟨s', hs', hprop⟩ := ih hndr hallr (storePut s u r)
      refine ⟨s', ?_, ?_⟩
      · simp only [addAllGo, hnet]
        exact hs'
      · intro v hv
        rcases List.mem_cons.mp hv with rfl | hv'
        · rw [addAllGo_preserves net rest v hur (storePut s v r) s' hs', hnet]
          exact storeMatch_put_self s v r
        · exact hprop v hv'

/-- A single failed manifest fetch makes addAllGo reject. -/
theorem addAllGo_fail (net : NetReq → Option Response) :
    ∀ (l : List String) (u : String), u ∈ l → net (reloadReq u) = none →
      ∀ s, addAllGo net l s = none := by
  intro l
  induction l with
  | nil =>
    intro u hu
    cases hu
  | cons v rest ih =>
    intro u hu hfail s
    cases hnet : net (reloadReq v) with
    | none => simp [addAllGo, hnet]
    | some r =>
      rcases List.mem_cons.mp hu with rfl | hu'
      · rw [hnet] at hfail
        cases hfail
      · simp only [addAllGo, hnet]
        exact ih u hu' hfail _

/-- C4: when every manifest resource's cache-bypassing fetch succeeds the
install step succeeds and the precache store holds each resource under its
URL; when any one of those fetches fails the install promise rejects. -/
theorem install_precache_spec (net : NetReq → Option Response) :
    ((∀ u ∈ PRECACHE_URLS, (net (reloadReq u)).isSome) →
      ∃ s, installPrecache net = some s ∧
        ∀ u ∈ PRECACHE_URLS, storeMatch s u = net (reloadReq u))
    ∧ ((∃ u ∈ PRECACHE_URLS, net (reloadReq u) = none) →
      installPrecache net = none) := by
  constructor
  · intro hall
    exact addAllGo_success net PRECACHE_URLS (by decide) hall []
  · rintro ⟨u, hu, hfail⟩
    exact addAllGo_fail net PRECACHE_URLS u hu hfail []

/-- A network where every fetch yields the same 200 page. -/
def constNet : NetReq → Option Response := fun _ => some (okResp "asset")

/-- A network where every fetch rejects. -/
def failNet : NetReq → Option Response := fun _ => none

/-- Witness for install_precache_spec: install succeeds against a healthy
network and rejects against a dead one. -/
theorem install_precache_spec_witness :
    (∃ s, installPrecache constNet = some s ∧
      ∀ u ∈ PRECACHE_URLS, storeMatch s u = constNet (reloadReq u))
    ∧ installPrecache failNet = none :=
  ⟨(install_precache_spec constNet).1 (fun _ _ => rfl),
   (install_precache_spec failNet).2 ⟨"/", by decide, rfl⟩⟩

/-- Same-origin stale-while-revalidate: state after a cacheable response. -/
theorem handleFetch_sameOrigin_snd (env : SWEnv) (req : Request)
    (res : Response) (ns : CacheNS) (hm : req.method = "GET")
    (hn : isNavigationRequest req = false) (ho : req.urlOrigin = env.origin)
    (hsw : endsWithStr req.urlPathname "/sw.js" = false)
    (hs : res.status = 200 ∨ res.rtype = "opaqueredirect") :
    (handleFetch env req (some res) ns).2 =
      nsSet ns RUNTIME (storePut (nsGet ns RUNTIME) req.url res) := by
  rw [handleFetch_sameOrigin env req (some res) ns hm hn ho hsw]
  exact if_pos hs

/-- C5: with a prior runtime entry, both stale-while-revalidate branches
serve the cached entry whatever the network fetch does, and the runtime
entry for the key is overwritten exactly when the fetch resolves with
status 200 or (same-origin only) type opaqueredirect; otherwise the
namespace is untouched. -/
theorem swr_cached_entry (env : SWEnv) (req : Request) (net : Option Response)
    (ns : CacheNS) (c : Response) :
    (req.method = "GET" → isNavigationRequest req = false →
     req.urlOrigin = env.origin →
     endsWithStr req.urlPathname "/sw.js" = false →
     storeMatch (nsGet ns RUNTIME) req.url = some c →
      (handleFetch env req net ns).1 = .responded (some c)
      ∧ (∀ res, net = some res →
          res.status = 200 ∨ res.rtype = "opaqueredirect" →
          storeMatch (nsGet (handleFetch env req net ns).2 RUNTIME) req.url =
            some res)
      ∧ (∀ res, net = some res →
          ¬ (res.status = 200 ∨ res.rtype = "opaqueredirect") →
          (handleFetch env req net ns).2 = ns)
      ∧ (net = none → (handleFetch env req net ns).2 = ns))
    ∧ (req.method = "GET" → isNavigationRequest req = false →
     ¬ req.urlOrigin = env.origin → isImageLike req = true →
     (IMAGE_HOST_WHITELIST env).contains req.urlHost = true →
     storeMatch (nsGet ns RUNTIME) req.url = some c →
      (handleFetch env req net ns).1 = .responded (some c)
      ∧ (∀ res, net = some res → res.status = 200 →
          storeMatch (nsGet (handleFetch env req net ns).2 RUNTIME) req.url =
            some res)
      ∧ (∀ res, net = some res → res.status ≠ 200 →
          (handleFetch env req net ns).2 = ns)
      ∧ (net = none → (handleFetch env req net ns).2 = ns)) := by
  constructor
  · intro hm hn ho hsw hc
    rw [handleFetch_sameOrigin env req net ns hm hn ho hsw]
    refine ⟨?_, ?_, ?_, ?_⟩
    · rw [hc, swrChain_hit]
    · intro res hres hcond
      subst hres
      simp only [if_pos hcond]
      rw [nsGet_nsSet_self]
      exact storeMatch_put_self _ _ _
    · intro res hres hcond
      subst hres
      exact if_neg hcond
    · intro hres
      subst hres
      rfl
  · intro hm hn ho hi hw hc
    rw [handleFetch_image env req net ns hm hn ho hi hw]
    refine ⟨?_, ?_, ?_, ?_⟩
    · rw [hc, swrChain_hit]
    · intro res hres hcond
      subst hres
      simp only [if_pos hcond]
      rw [nsGet_nsSet_self]
      exact storeMatch_put_self _ _ _
    · intro res hres hcond
      subst hres
      exact if_neg hcond
    · intro hres
      subst hres
      rfl

/-- Witness for swr_cached_entry: a cached stylesheet is served while a 200
refetch overwrites the entry, and a cached thumbnail is served likewise. -/
theorem swr_cached_entry_witness :
    (handleFetch envEx reqCss (some (okResp "new"))
        [(RUNTIME, [(reqCss.url, okResp "old")])]).1 =
      .responded (some (okResp "old"))
    ∧ storeMatch (nsGet (handleFetch envEx reqCss (some (okResp "new"))
        [(RUNTIME, [(reqCss.url, okResp "old")])]).2 RUNTIME) reqCss.url =
      some (okResp "new")
    ∧ (handleFetch envEx reqThumb (some (okResp "png"))
        [(RUNTIME, [(reqThumb.url, okResp "oldpng")])]).1 =
      .responded (some (okResp "oldpng")) := by
  have h1 := (swr_cached_entry envEx reqCss (some (okResp "new"))
      [(RUNTIME, [(reqCss.url, okResp "old")])] (okResp "old")).1
    rfl (by decide) rfl (by decide) (by decide)
  have h2 := (swr_cached_entry envEx reqThumb (some (okResp "png"))
      [(RUNTIME, [(reqThumb.url, okResp "oldpng")])] (okResp "oldpng")).2
    rfl (by decide) (by decide) (by decide) (by decide) (by decide)
  exact ⟨h1.1, h1.2.1 (okResp "new") rfl (Or.inl rfl), h2.1⟩

/-- Allowlisted-image stale-while-revalidate: state after a 200 response. -/
theorem handleFetch_image_snd (env : SWEnv) (req : Request)
    (res : Response) (ns : CacheNS) (hm : req.method = "GET")
    (hn : isNavigationRequest req = false)
    (ho : ¬ req.urlOrigin = env.origin) (hi : isImageLike req = true)
    (hw : (IMAGE_HOST_WHITELIST env).contains req.urlHost = true)
    (hs : res.status = 200) :
    (handleFetch env req (some res) ns).2 =
      nsSet ns RUNTIME (storePut (nsGet ns RUNTIME) req.url res) := by
  rw [handleFetch_image env req (some res) ns hm hn ho hi hw]
  exact if_pos hs

/-- C6: running the same stale-while-revalidate request twice in sequence,
both fetches succeeding with status 200, leaves the runtime store with
exactly one entry for the request key, holding the second response — for
the same-origin static branch and for the allowlisted external-image
branch alike. -/
theorem swr_repeat_overwrites (env : SWEnv) (req : Request) (ns : CacheNS)
    (net1 net2 : Option Response) (r1 r2 : Response) :
    (req.method = "GET" → isNavigationRequest req = false →
     req.urlOrigin = env.origin →
     endsWithStr req.urlPathname "/sw.js" = false →
     net1 = some r1 → r1.status = 200 → net2 = some r2 → r2.status = 200 →
      (nsGet (handleFetch env req net2 (handleFetch env req net1 ns).2).2
          RUNTIME).filter (fun e => e.1 == req.url) = [(req.url, r2)]
      ∧ storeMatch (nsGet (handleFetch env req net2
          (handleFetch env req net1 ns).2).2 RUNTIME) req.url = some r2)
    ∧ (req.method = "GET" → isNavigationRequest req = false →
     ¬ req.urlOrigin = env.origin → isImageLike req = true →
     (IMAGE_HOST_WHITELIST env).contains req.urlHost = true →
     net1 = some r1 → r1.status = 200 → net2 = some r2 → r2.status = 200 →
      (nsGet (handleFetch env req net2 (handleFetch env req net1 ns).2).2
          RUNTIME).filter (fun e => e.1 == req.url) = [(req.url, r2)]
      ∧ storeMatch (nsGet (handleFetch env req net2
          (handleFetch env req net1 ns).2).2 RUNTIME) req.url = some r2) := by
  constructor
  · intro hm hn ho hsw h1 h1s h2 h2s
    subst h1
    subst h2
    rw [handleFetch_sameOrigin_snd env req r1 ns hm hn ho hsw (Or.inl h1s)]
    rw [handleFetch_sameOrigin_snd env req r2 _ hm hn ho hsw (Or.inl h2s)]
    rw [nsGet_nsSet_self]
    exact ⟨filter_key_put _ _ _, storeMatch_put_self _ _ _⟩
  · intro hm hn ho hi hw h1 h1s h2 h2s
    subst h1
    subst h2
    rw [handleFetch_image_snd env req r1 ns hm hn ho hi hw h1s]
    rw [handleFetch_image_snd env req r2 _ hm hn ho hi hw h2s]
    rw [nsGet_nsSet_self]
    exact ⟨filter_key_put _ _ _, storeMatch_put_self _ _ _⟩

/-- Witness for swr_repeat_overwrites: two refetches of the same-origin
stylesheet, and two refetches of the allowlisted YouTube thumbnail. -/
theorem swr_repeat_overwrites_witness :
    ((nsGet (handleFetch envEx reqCss (some (okResp "v2"))
        (handleFetch envEx reqCss (some (okResp "v1")) []).2).2
        RUNTIME).filter (fun e => e.1 == reqCss.url) =
      [(reqCss.url, okResp "v2")]
    ∧ storeMatch (nsGet (handleFetch envEx reqCss (some (okResp "v2"))
        (handleFetch envEx reqCss (some (okResp "v1")) []).2).2 RUNTIME)
        reqCss.url = some (okResp "v2"))
    ∧ ((nsGet (handleFetch envEx reqThumb (some (okResp "t2"))
        (handleFetch envEx reqThumb (some (okResp "t1")) []).2).2
        RUNTIME).filter (fun e => e.1 == reqThumb.url) =
      [(reqThumb.url, okResp "t2")]
    ∧ storeMatch (nsGet (handleFetch envEx reqThumb (some (okResp "t2"))
        (handleFetch envEx reqThumb (some (okResp "t1")) []).2).2 RUNTIME)
        reqThumb.url = some (okResp "t2")) :=
  ⟨(swr_repeat_overwrites envEx reqCss [] (some (okResp "v1"))
      (some (okResp "v2")) (okResp "v1") (okResp "v2")).1 rfl (by decide)
    rfl (by decide) rfl rfl rfl rfl,
   (swr_repeat_overwrites envEx reqThumb [] (some (okResp "t1"))
      (some (okResp "t2")) (okResp "t1") (okResp "t2")).2 rfl (by decide)
    (by decide) (by decide) (by decide) rfl rfl rfl rfl⟩

/-- C7: an image-shaped request to a host outside the allowlist is not given
the image strategy: it runs the passthrough branch, which never writes to
any cache store. -/
theorem nonallowlisted_image_passthrough (env : SWEnv) (req : Request)
    (net : Option Response) (ns : CacheNS)
    (hm : req.method = "GET") (hn : isNavigationRequest req = false)
    (ho : ¬ req.urlOrigin = env.origin) (_hi : isImageLike req = true)
    (hw : (IMAGE_HOST_WHITELIST env).contains req.urlHost = false) :
    (handleFetch env req net ns).2 = ns
    ∧ (∀ r, net = some r →
        (handleFetch env req net ns).1 = .responded (some r))
    ∧ (net = none → (handleFetch env req net ns).1 =
        .responded (some ((storeMatch (nsGet ns RUNTIME) req.url).getD
          Response.err))) := by
  have hg : ¬ (isImageLike req = true ∧
      (IMAGE_HOST_WHITELIST env).contains req.urlHost = true) := by
    rintro ⟨_, hc⟩
    rw [hw] at hc
    exact Bool.false_ne_true hc
  cases net with
  | none =>
    rw [handleFetch_passthrough env req none ns hm hn ho hg]
    exact ⟨rfl, fun r hr => Option.noConfusion hr, fun _ => rfl⟩
  | some r =>
    rw [handleFetch_passthrough env req (some r) ns hm hn ho hg]
    refine ⟨rfl, ?_, fun h => Option.noConfusion h⟩
    intro r' hr'
    cases hr'
    rfl

/-- Witness for nonallowlisted_image_passthrough: an image on a foreign CDN
is served from the network with no cache write. -/
theorem nonallowlisted_image_passthrough_witness :
    (handleFetch envEx reqExtImg (some (okResp "img")) []).2 = []
    ∧ (handleFetch envEx reqExtImg (some (okResp "img")) []).1 =
        .responded (some (okResp "img")) := by
  have h := nonallowlisted_image_passthrough envEx reqExtImg
      (some (okResp "img")) [] rfl (by decide) (by decide) (by decide)
      (by decide)
  exact ⟨h.1, h.2.1 (okResp "img") rfl⟩

/-- C9: the precache store feeds only the navigation fallback, and only at
key 'index.html': the response of any non-navigation request is unchanged
under any replacement of the precache store, and so is a navigation response
whenever the two stores agree at 'index.html'. -/
theorem precache_read_only_at_index (env : SWEnv) (req : Request)
    (net : Option Response) (ns : CacheNS) (p q : Store)
    (h : isNavigationRequest req = false ∨
         storeMatch p "index.html" = storeMatch q "index.html") :
    (handleFetch env req net (nsSet ns PRECACHE p)).1 =
      (handleFetch env req net (nsSet ns PRECACHE q)).1 := by
  have hrtp : nsGet (nsSet ns PRECACHE p) RUNTIME = nsGet ns RUNTIME :=
    nsGet_nsSet_other ns PRECACHE RUNTIME p (by decide)
  have hrtq : nsGet (nsSet ns PRECACHE q) RUNTIME = nsGet ns RUNTIME :=
    nsGet_nsSet_other ns PRECACHE RUNTIME q (by decide)
  have hpcp : nsGet (nsSet ns PRECACHE p) PRECACHE = p :=
    nsGet_nsSet_self ns PRECACHE p
  have hpcq : nsGet (nsSet ns PRECACHE q) PRECACHE = q :=
    nsGet_nsSet_self ns PRECACHE q
  by_cases hgm : req.method = "GET"
  · cases hnav : isNavigationRequest req with
    | true =>
      rcases h with h | h
      · rw [hnav] at h
        cases h
      · cases net <;>
          simp [handleFetch, hgm, hnav, hpcp, hpcq, h]
    | false =>
      cases net <;>
        simp [handleFetch, hgm, hnav, hrtp, hrtq, hpcp, hpcq] <;>
        split_ifs <;>
        rfl
  · simp [handleFetch, hgm]

/-- Witness for precache_read_only_at_index: a stylesheet response ignores
whether the shell sits in the precache store. -/
theorem precache_read_only_at_index_witness :
    (handleFetch envEx reqCss none
        (nsSet [] PRECACHE [("index.html", indexDoc)])).1 =
      (handleFetch envEx reqCss none (nsSet [] PRECACHE [])).1 :=
  precache_read_only_at_index envEx reqCss none []
    [("index.html", indexDoc)] [] (Or.inl (by decide))

end SW
